import Mathlib

/-!
Verification of the Precinct Lookup GUI (`ArcgisJP.py`).

The program reads four address fields from a form, geocodes the composed
address, queries an ArcGIS feature service with the resulting point, and
displays a formatted summary of the first returned feature's attributes.

The shallow embedding below models:
  * attribute values as `JValue` (a JSON string or JSON null), since the
    feature attributes arrive as JSON and Python `dict.get` distinguishes
    an absent key from a key bound to `None`;
  * the two network services as oracle functions passed explicitly, with
    the list of performed network calls returned alongside the result so
    that "never contacts the network" claims are statable;
  * `query_precinct` and `get_precinct_info` as direct translations of the
    Python functions of the same names, including the exact error message
    strings and the Tkinter dialogs they raise.
-/

/-- A JSON attribute value as stored in the Python dict: a string, or
Python `None` (JSON null). -/
inductive JValue where
  | jstr (s : String)
  | jnull
deriving DecidableEq, Repr

/-- The `attributes` mapping of one feature: Python dict with string keys,
modelled as a first-match association list. -/
abbrev AttrMap := List (String × JValue)

/-- Python `key in d` lookup: first matching key wins. -/
def dictGet : AttrMap → String → Option JValue
  | [], _ => none
  | (k, v) :: rest, key => if k = key then some v else dictGet rest key

/-- Python `d.get(key, default)` with a string default: the stored value if
the key is present (even if bound to `None`), otherwise the default. -/
def getD (m : AttrMap) (key : String) (dflt : String) : JValue :=
  (dictGet m key).getD (JValue.jstr dflt)

/-- Python `d.get(key)` with no default: the stored value, or `None`. -/
def getOrNone (m : AttrMap) (key : String) : JValue :=
  (dictGet m key).getD JValue.jnull

/-- Python `str()` applied to a value in an f-string: a string renders as
itself, `None` renders as the literal text `None`. -/
def pyStr : JValue → String
  | .jstr s => s
  | .jnull => "None"

/-- Python truthiness of a value, as used by `filter(None, ...)`:
the empty string and `None` are falsy. -/
def truthy : JValue → Bool
  | .jstr s => s != ""
  | .jnull => false

/-- Python `str.strip()` with no argument: remove leading and trailing
whitespace characters. -/
def pyStrip (s : String) : String :=
  ⟨((s.data.dropWhile Char.isWhitespace).reverse.dropWhile
      Char.isWhitespace).reverse⟩

/-- Lines 114-120: `" ".join(filter(None, [get TITLE1, get FIRSTNAME1,
get LASTNAME1])).strip()`. -/
def judge_full_name (precinct_info : AttrMap) : String :=
  pyStrip (String.intercalate " "
    (([getD precinct_info "TITLE1" "",
       getD precinct_info "FIRSTNAME1" "",
       getD precinct_info "LASTNAME1" ""].filter truthy).map pyStr))

/-- Line 113: `precinct_info.get("PRECINCT")`. -/
def precinct_number (precinct_info : AttrMap) : JValue :=
  getOrNone precinct_info "PRECINCT"

/-- Line 122: `precinct_info.get("ADDRESS1", "Address Not Found")`. -/
def address_line (precinct_info : AttrMap) : JValue :=
  getD precinct_info "ADDRESS1" "Address Not Found"

/-- Line 123: `precinct_info.get("CITY1", "City Not Found")`. -/
def city_arc (precinct_info : AttrMap) : JValue :=
  getD precinct_info "CITY1" "City Not Found"

/-- Line 124: `precinct_info.get("STATE1", "State Not Found")`. -/
def state_arc (precinct_info : AttrMap) : JValue :=
  getD precinct_info "STATE1" "State Not Found"

/-- Line 125: `precinct_info.get("ZIP1", "ZIP Not Found")`. -/
def zip_arc (precinct_info : AttrMap) : JValue :=
  getD precinct_info "ZIP1" "ZIP Not Found"

/-- Line 126: `precinct_info.get("TEL1", "Phone Not Found")`. -/
def phone (precinct_info : AttrMap) : JValue :=
  getD precinct_info "TEL1" "Phone Not Found"

/-- Lines 128-131: the derived website URL, or `"Website Not Found"` when
`precinct_number` is `None`. -/
def website (precinct_info : AttrMap) : String :=
  if precinct_number precinct_info ≠ JValue.jnull then
    "https://www.dallascounty.org/government/jpcourts/"
      ++ pyStr (precinct_number precinct_info) ++ "/"
  else "Website Not Found"

/-- Lines 133-139: the `results` string shown in the information dialog. -/
def results (precinct_info : AttrMap) : String :=
  "Precinct Number: "
    ++ (if precinct_number precinct_info ≠ JValue.jnull
        then pyStr (precinct_number precinct_info) else "Not Found")
    ++ "\nJudge: "
    ++ (if judge_full_name precinct_info ≠ ""
        then judge_full_name precinct_info else "Not Found")
    ++ "\nAddress: " ++ pyStr (address_line precinct_info)
    ++ ", " ++ pyStr (city_arc precinct_info)
    ++ ", " ++ pyStr (state_arc precinct_info)
    ++ " " ++ pyStr (zip_arc precinct_info)
    ++ "\nPhone: " ++ pyStr (phone precinct_info)
    ++ "\nWebsite: " ++ website precinct_info

/-- A geocoded point (geopy `Location`); the claims never compute with the
coordinates, so they are carried as integers. -/
structure Location where
  latitude : Int
  longitude : Int
deriving DecidableEq, Repr

/-- Outcome of `geolocator.geocode`: a `GeocoderServiceError`, or a normal
return of `None` / a location. -/
inductive GeoResult where
  | serviceError (msg : String)
  | ok (loc : Option Location)
deriving DecidableEq

/-- One element of the feature service's `features` array. -/
structure Feature where
  attributes : AttrMap
deriving DecidableEq

/-- The parsed feature-service JSON body; `features = none` models a JSON
object with no `features` key at all. -/
structure FSData where
  features : Option (List Feature)
deriving DecidableEq

/-- Outcome of the ArcGIS HTTP request: a `RequestException` (including
non-success HTTP status raised by `raise_for_status`), or a parsed body. -/
inductive FSResult where
  | reqError (msg : String)
  | ok (data : FSData)
deriving DecidableEq

/-- An outbound network call performed by the flow. -/
inductive NetCall where
  | geocode (addr : String)
  | featureQuery (lat lon : Int)
deriving DecidableEq

/-- Line 39: `f"{street_address}, {city}, {state} {zip_code}"`. -/
def full_address (street_address city state zip_code : String) : String :=
  street_address ++ ", " ++ city ++ ", " ++ state ++ " " ++ zip_code

/-- Lines 23-87: geocode the address, then query the feature service.
The two services are oracle functions; the returned list records the
network calls actually performed, in order.  `Except.error` carries the
message of the raised `ValueError`. -/
def query_precinct (street_address city state zip_code : String)
    (geocoder : String → GeoResult)
    (featureService : Int → Int → FSResult) :
    Except String AttrMap × List NetCall :=
  let addr := full_address street_address city state zip_code
  match geocoder addr with
  | .serviceError e => (.error ("Geocoding error: " ++ e), [.geocode addr])
  | .ok none => (.error "Address could not be geocoded.", [.geocode addr])
  | .ok (some loc) =>
      let calls := [NetCall.geocode addr,
                    NetCall.featureQuery loc.latitude loc.longitude]
      match featureService loc.latitude loc.longitude with
      | .reqError e => (.error ("Error querying ArcGIS: " ++ e), calls)
      | .ok data =>
          match data.features.getD [] with
          | [] => (.error "No precinct found.", calls)
          | f :: _ => (.ok f.attributes, calls)

/-- A modal Tkinter dialog raised by the controller. -/
inductive Dialog where
  | errorDialog (title msg : String)
  | infoDialog (title msg : String)
deriving DecidableEq

/-- Lines 90-141: the form-submit handler.  It strips the four raw entry
strings, validates them non-empty (`all([...])`), runs `query_precinct`,
and shows either an error dialog or the information dialog with the
formatted `results`.  The second component records the network calls. -/
def get_precinct_info (rawStreet rawCity rawState rawZip : String)
    (geocoder : String → GeoResult)
    (featureService : Int → Int → FSResult) :
    Dialog × List NetCall :=
  let street_address := pyStrip rawStreet
  let city := pyStrip rawCity
  let state := pyStrip rawState
  let zip_code := pyStrip rawZip
  if street_address ≠ "" ∧ city ≠ "" ∧ state ≠ "" ∧ zip_code ≠ "" then
    match query_precinct street_address city state zip_code
        geocoder featureService with
    | (.error e, calls) => (.errorDialog "Lookup Error" e, calls)
    | (.ok precinct_info, calls) =>
        (.infoDialog "Precinct Information" (results precinct_info), calls)
  else
    (.errorDialog "Input Error" "Please fill in all address fields.", [])

/-- The example feature of the spec's §8 test vector. -/
def exampleFeature : AttrMap :=
  [("PRECINCT", .jstr "3"), ("TITLE1", .jstr "Judge"),
   ("FIRSTNAME1", .jstr "Jane"), ("LASTNAME1", .jstr "Doe"),
   ("ADDRESS1", .jstr "100 Main St"), ("CITY1", .jstr "Dallas"),
   ("STATE1", .jstr "TX"), ("ZIP1", .jstr "75201"),
   ("TEL1", .jstr "214-555-0100")]

/-- C1: for the spec's example feature, the summary string built by the
formatter is exactly the five-line text of the spec. -/
theorem example_summary_exact :
    results exampleFeature =
      "Precinct Number: 3\nJudge: Judge Jane Doe\nAddress: 100 Main St, Dallas, TX 75201\nPhone: 214-555-0100\nWebsite: https://www.dallascounty.org/government/jpcourts/3/" := by
  decide

/-- A mock geocoded point for concrete runs. -/
def mockLoc : Location := ⟨33, -97⟩

/-- A mock geocoder that finds `mockLoc` for every address. -/
def mockGeoFound : String → GeoResult := fun _ => .ok (some mockLoc)

/-- A mock geocoder that returns no location for every address. -/
def mockGeoNone : String → GeoResult := fun _ => .ok none

/-- A mock feature service whose response has an empty `features` array. -/
def mockFSEmpty : Int → Int → FSResult := fun _ _ => .ok ⟨some []⟩

/-- A mock feature service whose response body has no `features` key. -/
def mockFSNoKey : Int → Int → FSResult := fun _ _ => .ok ⟨none⟩

/-- A mock feature service returning the example feature first, followed by
a decoy second feature. -/
def mockFSExample : Int → Int → FSResult :=
  fun _ _ => .ok ⟨some [⟨exampleFeature⟩, ⟨[("PRECINCT", .jstr "9")]⟩]⟩

/-- C2: whenever at least one of the four fields is empty or
whitespace-only after stripping, submission shows the validation error
dialog and performs no network call at all. -/
theorem validation_blocks_network (rawStreet rawCity rawState rawZip : String)
    (geocoder : String → GeoResult) (featureService : Int → Int → FSResult)
    (h : pyStrip rawStreet = "" ∨ pyStrip rawCity = "" ∨
         pyStrip rawState = "" ∨ pyStrip rawZip = "") :
    get_precinct_info rawStreet rawCity rawState rawZip
        geocoder featureService =
      (Dialog.errorDialog "Input Error" "Please fill in all address fields.",
       []) := by
  have hc : ¬(pyStrip rawStreet ≠ "" ∧ pyStrip rawCity ≠ "" ∧
      pyStrip rawState ≠ "" ∧ pyStrip rawZip ≠ "") := by tauto
  simp [get_precinct_info, hc]

/-- C2 witness: a whitespace-only street field is rejected with no calls. -/
theorem validation_blocks_network_witness :
    get_precinct_info "   " "Dallas" "TX" "75201"
        mockGeoFound mockFSExample =
      (Dialog.errorDialog "Input Error" "Please fill in all address fields.",
       []) :=
  validation_blocks_network "   " "Dallas" "TX" "75201"
    mockGeoFound mockFSExample (Or.inl (by decide))

/-- C3: for a valid input, when the geocoder returns no location the flow
shows the "could not be geocoded" error dialog, the only network call is
the geocoding call, and the feature service is never invoked. -/
theorem geocode_none_blocks_query (rawStreet rawCity rawState rawZip : String)
    (geocoder : String → GeoResult) (featureService : Int → Int → FSResult)
    (hv : pyStrip rawStreet ≠ "" ∧ pyStrip rawCity ≠ "" ∧
          pyStrip rawState ≠ "" ∧ pyStrip rawZip ≠ "")
    (hg : geocoder (full_address (pyStrip rawStreet) (pyStrip rawCity)
            (pyStrip rawState) (pyStrip rawZip)) = GeoResult.ok none) :
    get_precinct_info rawStreet rawCity rawState rawZip
        geocoder featureService =
      (Dialog.errorDialog "Lookup Error" "Address could not be geocoded.",
       [NetCall.geocode (full_address (pyStrip rawStreet) (pyStrip rawCity)
          (pyStrip rawState) (pyStrip rawZip))]) ∧
    ∀ la lo, NetCall.featureQuery la lo ∉
      (get_precinct_info rawStreet rawCity rawState rawZip
        geocoder featureService).2 := by
  have h1 : get_precinct_info rawStreet rawCity rawState rawZip
      geocoder featureService =
      (Dialog.errorDialog "Lookup Error" "Address could not be geocoded.",
       [NetCall.geocode (full_address (pyStrip rawStreet) (pyStrip rawCity)
          (pyStrip rawState) (pyStrip rawZip))]) := by
    simp [get_precinct_info, query_precinct, hv, hg]
  refine ⟨h1, ?_⟩
  intro la lo
  rw [h1]
  simp

/-- C3 witness: concrete valid input against the no-location geocoder. -/
theorem geocode_none_blocks_query_witness :
    get_precinct_info "100 Main St" "Dallas" "TX" "75201"
        mockGeoNone mockFSExample =
      (Dialog.errorDialog "Lookup Error" "Address could not be geocoded.",
       [NetCall.geocode (full_address (pyStrip "100 Main St")
          (pyStrip "Dallas") (pyStrip "TX") (pyStrip "75201"))]) ∧
    ∀ la lo, NetCall.featureQuery la lo ∉
      (get_precinct_info "100 Main St" "Dallas" "TX" "75201"
        mockGeoNone mockFSExample).2 :=
  geocode_none_blocks_query "100 Main St" "Dallas" "TX" "75201"
    mockGeoNone mockFSExample
    ⟨by decide, by decide, by decide, by decide⟩ rfl

/-- C4: for a valid, geocodable input, a feature-service response whose
`features` array is empty makes the controller show the "No precinct
found." error dialog; no information dialog with a summary is shown. -/
theorem empty_features_no_precinct (rawStreet rawCity rawState rawZip : String)
    (geocoder : String → GeoResult) (featureService : Int → Int → FSResult)
    (loc : Location)
    (hv : pyStrip rawStreet ≠ "" ∧ pyStrip rawCity ≠ "" ∧
          pyStrip rawState ≠ "" ∧ pyStrip rawZip ≠ "")
    (hg : geocoder (full_address (pyStrip rawStreet) (pyStrip rawCity)
            (pyStrip rawState) (pyStrip rawZip)) = GeoResult.ok (some loc))
    (hf : featureService loc.latitude loc.longitude =
            FSResult.ok ⟨some []⟩) :
    get_precinct_info rawStreet rawCity rawState rawZip
        geocoder featureService =
      (Dialog.errorDialog "Lookup Error" "No precinct found.",
       [NetCall.geocode (full_address (pyStrip rawStreet) (pyStrip rawCity)
          (pyStrip rawState) (pyStrip rawZip)),
        NetCall.featureQuery loc.latitude loc.longitude]) := by
  simp [get_precinct_info, query_precinct, hv, hg, hf]

/-- C4 witness: concrete valid input against the empty-array service. -/
theorem empty_features_no_precinct_witness :
    get_precinct_info "100 Main St" "Dallas" "TX" "75201"
        mockGeoFound mockFSEmpty =
      (Dialog.errorDialog "Lookup Error" "No precinct found.",
       [NetCall.geocode (full_address (pyStrip "100 Main St")
          (pyStrip "Dallas") (pyStrip "TX") (pyStrip "75201")),
        NetCall.featureQuery mockLoc.latitude mockLoc.longitude]) :=
  empty_features_no_precinct "100 Main St" "Dallas" "TX" "75201"
    mockGeoFound mockFSEmpty mockLoc
    ⟨by decide, by decide, by decide, by decide⟩ rfl rfl

/-- C6: on a successful response with a non-empty `features` array,
`query_precinct` returns exactly the attributes of the first feature;
the tail of the array never influences the result. -/
theorem first_feature_attributes (street_address city state zip_code : String)
    (geocoder : String → GeoResult) (featureService : Int → Int → FSResult)
    (loc : Location) (f : Feature) (rest : List Feature)
    (hg : geocoder (full_address street_address city state zip_code) =
            GeoResult.ok (some loc))
    (hf : featureService loc.latitude loc.longitude =
            FSResult.ok ⟨some (f :: rest)⟩) :
    (query_precinct street_address city state zip_code
        geocoder featureService).1 = Except.ok f.attributes := by
  simp [query_precinct, hg, hf]

/-- C6 witness: with a two-feature response, the result is the first
feature's attributes, unaffected by the decoy second feature. -/
theorem first_feature_attributes_witness :
    (query_precinct "100 Main St" "Dallas" "TX" "75201"
        mockGeoFound mockFSExample).1 = Except.ok exampleFeature :=
  first_feature_attributes "100 Main St" "Dallas" "TX" "75201"
    mockGeoFound mockFSExample mockLoc ⟨exampleFeature⟩
    [⟨[("PRECINCT", .jstr "9")]⟩] rfl rfl

/-- C9: a successful response body with no `features` key at all behaves
exactly like one with an empty `features` array: `query_precinct` raises
"No precinct found." (and performs the same calls), not a parse error. -/
theorem missing_features_key_no_precinct
    (street_address city state zip_code : String)
    (geocoder : String → GeoResult) (fs fs' : Int → Int → FSResult)
    (loc : Location)
    (hg : geocoder (full_address street_address city state zip_code) =
            GeoResult.ok (some loc))
    (hf : fs loc.latitude loc.longitude = FSResult.ok ⟨none⟩)
    (hf' : fs' loc.latitude loc.longitude = FSResult.ok ⟨some []⟩) :
    query_precinct street_address city state zip_code geocoder fs =
        query_precinct street_address city state zip_code geocoder fs' ∧
      (query_precinct street_address city state zip_code geocoder fs).1 =
        Except.error "No precinct found." := by
  constructor
  · simp [query_precinct, hg, hf, hf']
  · simp [query_precinct, hg, hf]

/-- C9 witness: concrete run with a body lacking the `features` key. -/
theorem missing_features_key_no_precinct_witness :
    query_precinct "100 Main St" "Dallas" "TX" "75201"
        mockGeoFound mockFSNoKey =
      query_precinct "100 Main St" "Dallas" "TX" "75201"
        mockGeoFound mockFSEmpty ∧
    (query_precinct "100 Main St" "Dallas" "TX" "75201"
        mockGeoFound mockFSNoKey).1 = Except.error "No precinct found." :=
  missing_features_key_no_precinct "100 Main St" "Dallas" "TX" "75201"
    mockGeoFound mockFSNoKey mockFSEmpty mockLoc rfl rfl rfl

/-- One unfolding step of `dictGet` on a cons cell. -/
theorem dictGet_cons (k key : String) (v : JValue) (m : AttrMap) :
    dictGet ((k, v) :: m) key = if k = key then some v else dictGet m key :=
  rfl

/-- Bool test: `needle` occurs as a contiguous substring of `hay`. -/
def strContainsSub (hay needle : String) : Bool :=
  hay.data.tails.any (fun t => needle.data.isPrefixOf t)

/-- The example feature with the `TITLE1` attribute removed. -/
def exampleNoTitle : AttrMap :=
  [("PRECINCT", .jstr "3"),
   ("FIRSTNAME1", .jstr "Jane"), ("LASTNAME1", .jstr "Doe"),
   ("ADDRESS1", .jstr "100 Main St"), ("CITY1", .jstr "Dallas"),
   ("STATE1", .jstr "TX"), ("ZIP1", .jstr "75201"),
   ("TEL1", .jstr "214-555-0100")]

/-- C5 counterexample: with `TITLE1` absent (and every other field
present), the summary contains no `Not Found` placeholder of any kind —
the missing title is silently skipped in the judge name, so it is not
replaced by a field-specific placeholder. -/
theorem missing_title_no_placeholder :
    dictGet exampleNoTitle "TITLE1" = none ∧
    strContainsSub (results exampleNoTitle) "Not Found" = false ∧
    results exampleNoTitle =
      "Precinct Number: 3\nJudge: Jane Doe\nAddress: 100 Main St, Dallas, TX 75201\nPhone: 214-555-0100\nWebsite: https://www.dallascounty.org/government/jpcourts/3/" := by
  refine ⟨rfl, by decide, by decide⟩

/-- C5 amended: missing attributes never make the formatter fail, and the
five contact fields get field-specific placeholders — formatting a map
missing `ADDRESS1`/`CITY1`/`STATE1`/`ZIP1`/`TEL1` is identical to
formatting the same map with the field explicitly bound to its placeholder
string.  A missing `PRECINCT` instead yields `None` for the number (shown
as `Not Found`) and the fixed text `Website Not Found`; a missing
`TITLE1`/`FIRSTNAME1`/`LASTNAME1` is treated exactly like the empty
string, i.e. silently skipped in the judge name, with no placeholder. -/
theorem missing_fields_amended (m : AttrMap) :
    (dictGet m "ADDRESS1" = none →
      results m = results (("ADDRESS1", JValue.jstr "Address Not Found") :: m)) ∧
    (dictGet m "CITY1" = none →
      results m = results (("CITY1", JValue.jstr "City Not Found") :: m)) ∧
    (dictGet m "STATE1" = none →
      results m = results (("STATE1", JValue.jstr "State Not Found") :: m)) ∧
    (dictGet m "ZIP1" = none →
      results m = results (("ZIP1", JValue.jstr "ZIP Not Found") :: m)) ∧
    (dictGet m "TEL1" = none →
      results m = results (("TEL1", JValue.jstr "Phone Not Found") :: m)) ∧
    (dictGet m "PRECINCT" = none →
      precinct_number m = JValue.jnull ∧ website m = "Website Not Found") ∧
    (dictGet m "TITLE1" = none →
      results m = results (("TITLE1", JValue.jstr "") :: m)) ∧
    (dictGet m "FIRSTNAME1" = none →
      results m = results (("FIRSTNAME1", JValue.jstr "") :: m)) ∧
    (dictGet m "LASTNAME1" = none →
      results m = results (("LASTNAME1", JValue.jstr "") :: m)) := by
  refine ⟨?_, ?_, ?_, ?_, ?_, ?_, ?_, ?_, ?_⟩ <;> intro h
  all_goals
    simp [results, precinct_number, judge_full_name, address_line, city_arc,
      state_arc, zip_arc, phone, website, getD, getOrNone, dictGet_cons, h]

/-- The example feature with the `TEL1` attribute removed. -/
def exampleNoPhone : AttrMap :=
  [("PRECINCT", .jstr "3"), ("TITLE1", .jstr "Judge"),
   ("FIRSTNAME1", .jstr "Jane"), ("LASTNAME1", .jstr "Doe"),
   ("ADDRESS1", .jstr "100 Main St"), ("CITY1", .jstr "Dallas"),
   ("STATE1", .jstr "TX"), ("ZIP1", .jstr "75201")]

/-- C5 amended witness: a missing `TEL1` formats like an explicit
`Phone Not Found` binding. -/
theorem missing_fields_amended_witness :
    results exampleNoPhone =
      results (("TEL1", JValue.jstr "Phone Not Found") :: exampleNoPhone) :=
  (missing_fields_amended exampleNoPhone).2.2.2.2.1 rfl

/-- Following the spec's words for the judge name: "the space-join of the
TITLE1, FIRSTNAME1 and LASTNAME1 values with empty parts skipped" — join
the given parts with a single space, skipping empty parts. -/
def spec_name_join (parts : List String) : String :=
  String.intercalate " " (parts.filter (fun s => s != ""))

/-- The text a name-part value contributes in the judge name: its string
content, with a missing or `None` part counting as empty. -/
def asStr : JValue → String
  | .jstr s => s
  | .jnull => ""

/-- Filtering by Python truthiness and then rendering equals rendering and
then dropping empty strings. -/
theorem map_pyStr_filter_truthy (l : List JValue) :
    (l.filter truthy).map pyStr = (l.map asStr).filter (fun s => s != "") := by
  induction l with
  | nil => rfl
  | cons v t ih =>
      cases v with
      | jnull => simpa [truthy, asStr] using ih
      | jstr s =>
          by_cases hs : s = ""
          · subst hs
            simpa [truthy, asStr] using ih
          · simp [truthy, asStr, hs, pyStr, ih]

/-- A feature whose `TITLE1` is a whitespace-only string and whose
`PRECINCT` is absent. -/
def titleBlankFeature : AttrMap :=
  [("TITLE1", .jstr " "),
   ("FIRSTNAME1", .jstr "Jane"), ("LASTNAME1", .jstr "Doe"),
   ("ADDRESS1", .jstr "1 A St"), ("CITY1", .jstr "Dallas"),
   ("STATE1", .jstr "TX"), ("ZIP1", .jstr "75201"),
   ("TEL1", .jstr "555")]

/-- C7 counterexample: for a feature whose `TITLE1` is the one-space
string `" "`, the judge name in the summary is `"Jane Doe"`, not the plain
space-join of the three values (which is `"  Jane Doe"`): the code strips
the joined string.  Moreover, with `PRECINCT` absent the website line is
the fixed text `Website Not Found`, not a URL parameterized by a precinct
number. -/
theorem judge_join_counterexample :
    dictGet titleBlankFeature "TITLE1" = some (JValue.jstr " ") ∧
    spec_name_join [" ", "Jane", "Doe"] = "  Jane Doe" ∧
    judge_full_name titleBlankFeature = "Jane Doe" ∧
    judge_full_name titleBlankFeature ≠ spec_name_join [" ", "Jane", "Doe"] ∧
    website titleBlankFeature = "Website Not Found" := by
  refine ⟨rfl, by decide, by decide, by decide, by decide⟩

/-- C7 amended: the judge name is the space-join of the three name-part
values (missing or `None` parts counting as empty) with empty parts
skipped, *stripped of surrounding whitespace*; and whenever the feature
has a non-`None` precinct number, the website is the Dallas County URL
parameterized by that number. -/
theorem judge_and_website_amended (m : AttrMap) :
    judge_full_name m =
      pyStrip (spec_name_join
        [asStr (getD m "TITLE1" ""), asStr (getD m "FIRSTNAME1" ""),
         asStr (getD m "LASTNAME1" "")]) ∧
    (precinct_number m ≠ JValue.jnull →
      website m = "https://www.dallascounty.org/government/jpcourts/"
        ++ pyStr (precinct_number m) ++ "/") := by
  constructor
  · have hmap := map_pyStr_filter_truthy
      [getD m "TITLE1" "", getD m "FIRSTNAME1" "", getD m "LASTNAME1" ""]
    simp only [judge_full_name, spec_name_join, List.map] at hmap ⊢
    rw [hmap]
  · intro h
    simp [website, h]

/-- C7 amended witness: the example feature has a non-`None` precinct, so
its website is the parameterized URL. -/
theorem judge_and_website_amended_witness :
    website exampleFeature =
      "https://www.dallascounty.org/government/jpcourts/"
        ++ pyStr (precinct_number exampleFeature) ++ "/" :=
  (judge_and_website_amended exampleFeature).2 (by decide)

/-- C8: the flow is a deterministic function of the form input and the two
service responses: two submissions whose geocoders agree on the composed
address and whose feature services agree on the geocoded point produce
identical dialogs (hence identical summaries) and identical call traces.
In particular, resubmitting the same input against the same deterministic
mocks gives the same summary. -/
theorem deterministic_summary (rawStreet rawCity rawState rawZip : String)
    (g g' : String → GeoResult) (fs fs' : Int → Int → FSResult)
    (hg : g (full_address (pyStrip rawStreet) (pyStrip rawCity)
            (pyStrip rawState) (pyStrip rawZip)) =
          g' (full_address (pyStrip rawStreet) (pyStrip rawCity)
            (pyStrip rawState) (pyStrip rawZip)))
    (hfs : ∀ loc,
        g (full_address (pyStrip rawStreet) (pyStrip rawCity)
            (pyStrip rawState) (pyStrip rawZip)) = GeoResult.ok (some loc) →
        fs loc.latitude loc.longitude = fs' loc.latitude loc.longitude) :
    get_precinct_info rawStreet rawCity rawState rawZip g fs =
      get_precinct_info rawStreet rawCity rawState rawZip g' fs' := by
  by_cases hv : pyStrip rawStreet ≠ "" ∧ pyStrip rawCity ≠ "" ∧
      pyStrip rawState ≠ "" ∧ pyStrip rawZip ≠ ""
  · simp only [get_precinct_info, query_precinct, if_pos hv, ← hg]
    cases hcase : g (full_address (pyStrip rawStreet) (pyStrip rawCity)
        (pyStrip rawState) (pyStrip rawZip)) with
    | serviceError e => rfl
    | ok oloc =>
        cases oloc with
        | none => rfl
        | some loc =>
            dsimp only
            rw [hfs loc hcase]
  · simp [get_precinct_info, hv]

/-- C8 witness: two identical submissions against the same deterministic
mocks yield the same dialog and trace. -/
theorem deterministic_summary_witness :
    get_precinct_info "100 Main St" "Dallas" "TX" "75201"
        mockGeoFound mockFSExample =
      get_precinct_info "100 Main St" "Dallas" "TX" "75201"
        mockGeoFound mockFSExample :=
  deterministic_summary "100 Main St" "Dallas" "TX" "75201"
    mockGeoFound mockGeoFound mockFSExample mockFSExample
    rfl (fun _ _ => rfl)

/-- C10: a contact field present but bound to JSON null (`None`) is *not*
replaced by its "Not Found" placeholder — `dict.get` returns the stored
`None`, which the f-string renders as the literal text `None`; for `TEL1`
the summary therefore carries a `Phone: None` line. -/
theorem null_fields_render_none (m : AttrMap) :
    (dictGet m "ADDRESS1" = some JValue.jnull →
      address_line m = JValue.jnull ∧ pyStr (address_line m) = "None" ∧
      address_line m ≠ JValue.jstr "Address Not Found") ∧
    (dictGet m "CITY1" = some JValue.jnull →
      city_arc m = JValue.jnull ∧ pyStr (city_arc m) = "None" ∧
      city_arc m ≠ JValue.jstr "City Not Found") ∧
    (dictGet m "STATE1" = some JValue.jnull →
      state_arc m = JValue.jnull ∧ pyStr (state_arc m) = "None" ∧
      state_arc m ≠ JValue.jstr "State Not Found") ∧
    (dictGet m "ZIP1" = some JValue.jnull →
      zip_arc m = JValue.jnull ∧ pyStr (zip_arc m) = "None" ∧
      zip_arc m ≠ JValue.jstr "ZIP Not Found") ∧
    (dictGet m "TEL1" = some JValue.jnull →
      phone m = JValue.jnull ∧ pyStr (phone m) = "None" ∧
      phone m ≠ JValue.jstr "Phone Not Found" ∧
      ∃ a b, results m = a ++ ("\nPhone: " ++ ("None" ++ b))) := by
  refine ⟨?_, ?_, ?_, ?_, ?_⟩ <;> intro h
  · simp [address_line, getD, h, pyStr]
  · simp [city_arc, getD, h, pyStr]
  · simp [state_arc, getD, h, pyStr]
  · simp [zip_arc, getD, h, pyStr]
  · have hp : phone m = JValue.jnull := by simp [phone, getD, h]
    refine ⟨hp, by simp [hp, pyStr], by simp [hp], ?_⟩
    refine ⟨"Precinct Number: "
        ++ (if precinct_number m ≠ JValue.jnull
            then pyStr (precinct_number m) else "Not Found")
        ++ "\nJudge: "
        ++ (if judge_full_name m ≠ ""
            then judge_full_name m else "Not Found")
        ++ "\nAddress: " ++ pyStr (address_line m)
        ++ ", " ++ pyStr (city_arc m)
        ++ ", " ++ pyStr (state_arc m)
        ++ " " ++ pyStr (zip_arc m),
      "\nWebsite: " ++ website m, ?_⟩
    simp only [results, hp, pyStr, String.append_assoc]

/-- A feature whose `TEL1` attribute is present but null. -/
def exampleNullPhone : AttrMap :=
  [("PRECINCT", .jstr "3"), ("TEL1", .jnull)]

/-- C10 witness: a null-valued `TEL1` renders as `None`, not as the
`Phone Not Found` placeholder. -/
theorem null_fields_render_none_witness :
    phone exampleNullPhone = JValue.jnull ∧
    pyStr (phone exampleNullPhone) = "None" ∧
    phone exampleNullPhone ≠ JValue.jstr "Phone Not Found" ∧
    ∃ a b, results exampleNullPhone = a ++ ("\nPhone: " ++ ("None" ++ b)) :=
  (null_fields_render_none exampleNullPhone).2.2.2.2 rfl
